import Mathlib

/-
Verification of the aws-mcp command-safety classifier and
permission-enforced execution pipeline.

The development shallowly embeds the two server implementations
(the stdio server and the HTTP server): the command classifier,
the argument-vector construction with shell-style tokenization,
the permission gateway around the two execution channels, and the
profile listing.  Subprocess execution is modelled by an explicit
oracle mapping an argument vector to a process outcome; everything
up to the launch decision is embedded faithfully from the code.

String operations model the Python string methods on their ASCII
fragment (lower, strip, split, startswith, slicing by code point).
-/

namespace AwsMcp

/-- ASCII lowercasing of a character, modelling Python str.lower
on the ASCII fragment. -/
def asciiLower (c : Char) : Char :=
  if 65 ≤ c.toNat ∧ c.toNat ≤ 90 then Char.ofNat (c.toNat + 32) else c

/-- Python str.lower, modelled on ASCII. -/
def pyLower (s : String) : String := String.mk (s.data.map asciiLower)

/-- The ASCII white-space characters stripped by Python str.strip()
and split on by str.split(): space, tab, newline, carriage return,
vertical tab, form feed. -/
def isPyWs (c : Char) : Bool :=
  c == ' ' || c == '\t' || c == '\n' || c == '\r' || c == Char.ofNat 11 || c == Char.ofNat 12

/-- Python str.strip(): remove leading and trailing white space. -/
def pyStrip (s : String) : String :=
  String.mk (((s.data.dropWhile isPyWs).reverse.dropWhile isPyWs).reverse)

/-- Python str.startswith on strings. -/
def startsWithS (s p : String) : Bool := p.data.isPrefixOf s.data

/-- Python slicing s[n:] by code points. -/
def dropS (s : String) (n : Nat) : String := String.mk (s.data.drop n)

/-- Helper for pySplit: split a character list on white-space runs,
accumulating the current word in reverse. -/
def splitWsAux : List Char → List Char → List String
  | [], acc => if acc.isEmpty then [] else [String.mk acc.reverse]
  | c :: cs, acc =>
    if isPyWs c then
      if acc.isEmpty then splitWsAux cs []
      else String.mk acc.reverse :: splitWsAux cs []
    else splitWsAux cs (c :: acc)

/-- Python str.split() with no arguments: split on white-space runs,
discarding empty pieces. -/
def pySplit (s : String) : List String := splitWsAux s.data []

/-- The read-only prefix list returned by
AWSMCPServer._get_read_only_prefixes in aws_mcp_server.py. -/
def read_only_prefixes : List String :=
  ["describe", "list", "get", "show", "view", "ls", "head",
   "ec2 describe", "s3 ls", "s3 head", "s3api list", "s3api get",
   "iam list", "iam get", "rds describe", "lambda list", "lambda get",
   "dynamodb describe", "dynamodb list", "cloudformation describe",
   "cloudformation list", "sns list", "sqs list", "sqs get",
   "cloudwatch describe", "cloudwatch list", "cloudwatch get",
   "logs describe", "logs filter", "sts get", "sts assume",
   "route53 list", "route53 get", "ecr describe", "ecr list",
   "ecs describe", "ecs list", "elasticache describe",
   "autoscaling describe", "elb describe", "elbv2 describe"]

/-- The read-verb list used by the second-token fallback in
_is_read_only_command. -/
def read_verbs : List String := ["describe", "list", "get", "show", "ls"]

/-- The normalization performed at the top of _is_read_only_command:
cmd_lower = command.lower().strip(), then if it starts with "aws "
drop four characters and strip again. -/
def normalizeCmd (command : String) : String :=
  let c := pyStrip (pyLower command)
  if startsWithS c "aws " then pyStrip (dropS c 4) else c

/-- AWSMCPServer._is_read_only_command from aws_mcp_server.py:
normalize, test the read-only prefixes, then fall back to testing
whether the second white-space token starts with a read verb. -/
def _is_read_only_command (command : String) : Bool :=
  let cmd := normalizeCmd command
  if read_only_prefixes.any (fun p => startsWithS cmd p) then true
  else
    match pySplit cmd with
    | _service :: operation :: _ => read_verbs.any (fun v => startsWithS operation v)
    | _ => false

/-- The read-only prefix list returned by
AWSMCPHTTPServer._get_read_only_prefixes in aws_mcp_http_server.py
(textually identical to the stdio list). -/
def http_read_only_prefixes : List String :=
  ["describe", "list", "get", "show", "view", "ls", "head",
   "ec2 describe", "s3 ls", "s3 head", "s3api list", "s3api get",
   "iam list", "iam get", "rds describe", "lambda list", "lambda get",
   "dynamodb describe", "dynamodb list", "cloudformation describe",
   "cloudformation list", "sns list", "sqs list", "sqs get",
   "cloudwatch describe", "cloudwatch list", "cloudwatch get",
   "logs describe", "logs filter", "sts get", "sts assume",
   "route53 list", "route53 get", "ecr describe", "ecr list",
   "ecs describe", "ecs list", "elasticache describe",
   "autoscaling describe", "elb describe", "elbv2 describe"]

/-- AWSMCPHTTPServer._is_read_only_command from aws_mcp_http_server.py. -/
def http_is_read_only_command (command : String) : Bool :=
  let cmd := normalizeCmd command
  if http_read_only_prefixes.any (fun p => startsWithS cmd p) then true
  else
    match pySplit cmd with
    | _service :: operation :: _ => read_verbs.any (fun v => startsWithS operation v)
    | _ => false

example : _is_read_only_command "s3 ls" = true := by decide
example : _is_read_only_command "aws Describe-Instances" = true := by decide
example : _is_read_only_command "sts get-caller-identity" = true := by decide
example : _is_read_only_command "s3 mb s3://bucket" = false := by decide
example : _is_read_only_command "ec2 create-instance" = false := by decide

/-- The white-space characters of the shlex lexer: space, tab,
carriage return, newline. -/
def isShWs (c : Char) : Bool :=
  c == ' ' || c == '\t' || c == '\r' || c == '\n'

/-- The double-quote character. -/
def dq : Char := Char.ofNat 34

/-- The single-quote character. -/
def sq : Char := Char.ofNat 39

/-- Lexer states of Python shlex in POSIX mode with whitespace
splitting: between tokens, inside a word, inside single or double
quotes, and the escape state entered from a word (escapedstate a)
or from double quotes (escapedstate double-quote). -/
inductive LexState
  | ws
  | word
  | squote
  | dquote
  | escA
  | escQ
deriving DecidableEq

/-- The state machine of shlex.read_token in POSIX mode with
whitespace_split=True and comments disabled, iterated over the whole
input as shlex.split does.  Arguments: remaining input, lexer state,
current token (reversed), the per-token quoted flag, and the emitted
tokens (reversed).  Unbalanced quotes give the ValueError message
"No closing quotation"; a trailing escape gives "No escaped
character". -/
def shlexGo : List Char → LexState → List Char → Bool → List String →
    Except String (List String)
  | [], st, cur, quoted, acc =>
    match st with
    | .ws => Except.ok acc.reverse
    | .word =>
      if cur.isEmpty && quoted == false then Except.ok acc.reverse
      else Except.ok (String.mk cur.reverse :: acc).reverse
    | .squote => Except.error "No closing quotation"
    | .dquote => Except.error "No closing quotation"
    | .escA => Except.error "No escaped character"
    | .escQ => Except.error "No escaped character"
  | c :: cs, st, cur, quoted, acc =>
    match st with
    | .ws =>
      if isShWs c then shlexGo cs .ws [] false acc
      else if c == '\\' then shlexGo cs .escA cur quoted acc
      else if c == sq then shlexGo cs .squote cur true acc
      else if c == dq then shlexGo cs .dquote cur true acc
      else shlexGo cs .word (c :: cur) quoted acc
    | .word =>
      if isShWs c then
        if cur.isEmpty && quoted == false then shlexGo cs .ws [] false acc
        else shlexGo cs .ws [] false (String.mk cur.reverse :: acc)
      else if c == sq then shlexGo cs .squote cur true acc
      else if c == dq then shlexGo cs .dquote cur true acc
      else if c == '\\' then shlexGo cs .escA cur quoted acc
      else shlexGo cs .word (c :: cur) quoted acc
    | .squote =>
      if c == sq then shlexGo cs .word cur quoted acc
      else shlexGo cs .squote (c :: cur) quoted acc
    | .dquote =>
      if c == dq then shlexGo cs .word cur quoted acc
      else if c == '\\' then shlexGo cs .escQ cur quoted acc
      else shlexGo cs .dquote (c :: cur) quoted acc
    | .escA => shlexGo cs .word (c :: cur) quoted acc
    | .escQ =>
      if c == '\\' || c == dq then shlexGo cs .dquote (c :: cur) quoted acc
      else shlexGo cs .dquote (c :: '\\' :: cur) quoted acc

deriving instance DecidableEq for Except

/-- Python shlex.split(s) in POSIX mode. -/
def shlexSplit (s : String) : Except String (List String) :=
  shlexGo s.data .ws [] false []

example : shlexSplit "s3 ls" = Except.ok ["s3", "ls"] := by decide
example : shlexSplit "s3 cp \"my file.txt\" dest" =
    Except.ok ["s3", "cp", "my file.txt", "dest"] := by decide
example : shlexSplit "s3 ls \"oops" = Except.error "No closing quotation" := by decide

/-- Outcome of one subprocess.run call, as observed by the engine:
normal completion with an exit code, stdout and stderr; a timeout
(subprocess.TimeoutExpired); or any other launch-time exception with
its message. -/
inductive ProcResult
  | completed (exitCode : Int) (stdout stderr : String)
  | timedOut
  | launchError (msg : String)
deriving DecidableEq

/-- Removing the leading invocation-name token in execute_aws_command:
if command.startswith("aws ") then command[4:].  Unlike the
classifier, this test is case sensitive and does not strip. -/
def stripAwsExec (command : String) : String :=
  if startsWithS command "aws " then dropS command 4 else command

/-- The argument-vector construction of
AWSMCPServer.execute_aws_command: base invocation name, profile and
region options when given, then the shlex-tokenized command text;
a shlex ValueError is propagated as an error. -/
def buildArgv (command : String) (profile region : Option String) :
    Except String (List String) :=
  let base := ["aws"]
  let base := base ++ (match profile with
    | some p => ["--profile", p]
    | none => [])
  let base := base ++ (match region with
    | some r => ["--region", r]
    | none => [])
  match shlexSplit (stripAwsExec command) with
  | Except.error e => Except.error e
  | Except.ok parts => Except.ok (base ++ parts)

/-- The result translation of the subprocess block in
execute_aws_command: exit code 0 gives (True, stdout), a nonzero exit
gives the "Command failed" message with stderr, a timeout gives the
fixed 30-second message, and a launch exception gives the
"Error executing command" message. -/
def runProc : ProcResult → Bool × String
  | .completed e out err =>
    if e == 0 then (true, out) else (false, "Command failed: " ++ err)
  | .timedOut => (false, "Command timed out after 30 seconds")
  | .launchError e => (false, "Error executing command: " ++ e)

/-- AWSMCPServer.execute_aws_command of aws_mcp_server.py, with the
subprocess modelled by the oracle proc.  The first component records
the argument vector of the launched child process (none when no
process was launched); the second is the (success, output) pair the
method returns. -/
def execute_aws_command (proc : List String → ProcResult) (command : String)
    (profile region : Option String) : Option (List String) × (Bool × String) :=
  match buildArgv command profile region with
  | Except.error e => (none, (false, "Invalid command syntax: " ++ e))
  | Except.ok argv => (some argv, runProc (proc argv))

/-- AWSMCPHTTPServer.execute_aws_command of aws_mcp_http_server.py:
identical except that the command text is tokenized with plain
command.split() (no quote handling, no tokenization failure), so a
child process is always launched. -/
def http_execute_aws_command (proc : List String → ProcResult) (command : String)
    (profile region : Option String) : Option (List String) × (Bool × String) :=
  let base := ["aws"]
  let base := base ++ (match profile with
    | some p => ["--profile", p]
    | none => [])
  let base := base ++ (match region with
    | some r => ["--region", r]
    | none => [])
  let argv := base ++ pySplit (stripAwsExec command)
  (some argv, runProc (proc argv))

/-- A single-quote string, used in the error messages built with
Python f-strings. -/
def squoteS : String := String.singleton sq

/-- The rejection message of the read channel for a command that is
not classified read-only. -/
def readRejectMsg (command : String) : String :=
  "Error: Command " ++ squoteS ++ command ++ squoteS ++
    " is not a read-only operation. Use execute_aws_write_command instead."

/-- The rejection message of the write channel for a command that is
classified read-only. -/
def writeRejectMsg (command : String) : String :=
  "Error: Command " ++ squoteS ++ command ++ squoteS ++
    " is a read-only operation. Use execute_aws_read_command instead."

/-- The execute_aws_read_command branch of handle_call_tool in
aws_mcp_server.py: reject empty commands, reject commands not
classified read-only, otherwise delegate to the engine and return its
output text.  The first component is the launched argument vector,
none when no child process was launched. -/
def execute_aws_read_command (proc : List String → ProcResult) (command : String)
    (profile region : Option String) : Option (List String) × String :=
  if command == "" then (none, "Error: No command provided")
  else if _is_read_only_command command then
    let r := execute_aws_command proc command profile region
    (r.1, r.2.2)
  else (none, readRejectMsg command)

/-- The execute_aws_write_command branch of handle_call_tool in
aws_mcp_server.py: reject empty commands, reject commands classified
read-only, otherwise delegate to the engine. -/
def execute_aws_write_command (proc : List String → ProcResult) (command : String)
    (profile region : Option String) : Option (List String) × String :=
  if command == "" then (none, "Error: No command provided")
  else if _is_read_only_command command then (none, writeRejectMsg command)
  else
    let r := execute_aws_command proc command profile region
    (r.1, r.2.2)

/-- The execute_aws_read_command tool of aws_mcp_http_server.py,
which uses the HTTP classifier and the HTTP engine. -/
def http_execute_aws_read_command (proc : List String → ProcResult) (command : String)
    (profile region : Option String) : Option (List String) × String :=
  if command == "" then (none, "Error: No command provided")
  else if http_is_read_only_command command then
    let r := http_execute_aws_command proc command profile region
    (r.1, r.2.2)
  else (none, readRejectMsg command)

/-- The execute_aws_write_command tool of aws_mcp_http_server.py. -/
def http_execute_aws_write_command (proc : List String → ProcResult) (command : String)
    (profile region : Option String) : Option (List String) × String :=
  if command == "" then (none, "Error: No command provided")
  else if http_is_read_only_command command then (none, writeRejectMsg command)
  else
    let r := http_execute_aws_command proc command profile region
    (r.1, r.2.2)

/-- The attributes a profile may carry after loading from
~/.aws/config: region, output and role_arn, each optional. -/
structure ProfileInfo where
  region : Option String
  output : Option String
  role_arn : Option String
deriving DecidableEq

/-- The per-profile line built in the list_aws_profiles loop.  The
Python truthiness tests info.get("region") and info.get("role_arn")
are false both when the key is absent and when its value is the empty
string. -/
def formatProfile (name : String) (info : ProfileInfo) : String :=
  let s := "Profile: " ++ name
  let s := match info.region with
    | some r => if r == "" then s else s ++ " (region: " ++ r ++ ")"
    | none => s
  let s := match info.role_arn with
    | some a => if a == "" then s else s ++ " [role: " ++ a ++ "]"
    | none => s
  s

/-- Python "\n".join. -/
def joinNL : List String → String
  | [] => ""
  | [x] => x
  | x :: xs => x ++ "\n" ++ joinNL xs

/-- The list_aws_profiles branch of handle_call_tool, over the loaded
profile mapping in its iteration order: one formatted line per
profile, prefixed by a header line when non-empty, or the fixed
no-profiles message. -/
def list_aws_profiles (profiles : List (String × ProfileInfo)) : String :=
  let lines := profiles.map (fun pi => formatProfile pi.1 pi.2)
  if lines.isEmpty then "No AWS profiles found in ~/.aws/config"
  else "Available AWS profiles:\n" ++ joinNL lines

example : buildArgv "s3 ls" (some "prod") (some "us-east-1") =
    Except.ok ["aws", "--profile", "prod", "--region", "us-east-1", "s3", "ls"] := by decide
example : list_aws_profiles [("dev", ⟨some "us-east-1", none, none⟩)] =
    "Available AWS profiles:\nProfile: dev (region: us-east-1)" := by decide

/-- String append is associative (via the underlying character lists). -/
theorem strAppendAssoc (a b c : String) : a ++ b ++ c = a ++ (b ++ c) := by
  apply String.ext
  simp [String.data_append, List.append_assoc]

/-- Claim C1: every command text whose normalized form (lowercased,
stripped, one leading "aws " token removed if present) starts with
one of the bare verbs describe, list, get, show, view, ls or head is
classified read-only. -/
theorem classify_bare_verb_read_only (command : String)
    (h : ∃ p ∈ ["describe", "list", "get", "show", "view", "ls", "head"],
      startsWithS (normalizeCmd command) p = true) :
    _is_read_only_command command = true := by
  obtain ⟨p, hmem, hp⟩ := h
  have hany : read_only_prefixes.any (fun q => startsWithS (normalizeCmd command) q) = true := by
    refine List.any_eq_true.mpr ⟨p, ?_, hp⟩
    fin_cases hmem <;> decide
  unfold _is_read_only_command
  simp [hany]

/-- Witness for C1 at a concrete input. -/
theorem classify_bare_verb_read_only_witness :
    _is_read_only_command "  AWS Describe-Instances --output json" = true :=
  classify_bare_verb_read_only "  AWS Describe-Instances --output json" (by decide)

/-- Claim C2: every command whose normalized form splits into at
least two white-space tokens with a second token starting with
describe, list, get, show or ls is classified read-only, whether or
not the service-verb pair appears in the prefix list. -/
theorem classify_second_token_verb (command svc op : String) (rest : List String)
    (hsplit : pySplit (normalizeCmd command) = svc :: op :: rest)
    (hverb : ∃ v ∈ ["describe", "list", "get", "show", "ls"], startsWithS op v = true) :
    _is_read_only_command command = true := by
  obtain ⟨v, hv, hsw⟩ := hverb
  have hvb : read_verbs.any (fun w => startsWithS op w) = true :=
    List.any_eq_true.mpr ⟨v, by fin_cases hv <;> decide, hsw⟩
  unfold _is_read_only_command
  by_cases hany : read_only_prefixes.any (fun q => startsWithS (normalizeCmd command) q) = true
  · simp [hany]
  · simp only [Bool.not_eq_true] at hany
    simp [hany, hsplit, hvb]

/-- Witness for C2 at a concrete input whose service-verb pair is not
in the prefix list. -/
theorem classify_second_token_verb_witness :
    _is_read_only_command "secretsmanager get-secret-value --secret-id x" = true :=
  classify_second_token_verb "secretsmanager get-secret-value --secret-id x"
    "secretsmanager" "get-secret-value" ["--secret-id", "x"] (by decide) (by decide)

/-- Claim C3: every command whose normalized form matches no entry of
the prefix list and whose second white-space token (when one exists)
starts with none of the read verbs is classified mutating. -/
theorem classify_default_mutating (command : String)
    (h1 : read_only_prefixes.any (fun p => startsWithS (normalizeCmd command) p) = false)
    (h2 : ∀ svc op rest, pySplit (normalizeCmd command) = svc :: op :: rest →
      read_verbs.any (fun v => startsWithS op v) = false) :
    _is_read_only_command command = false := by
  unfold _is_read_only_command
  rcases hps : pySplit (normalizeCmd command) with _ | ⟨a, _ | ⟨b, r⟩⟩
  · simp [h1, hps]
  · simp [h1, hps]
  · simp [h1, hps, h2 a b r hps]

/-- Witness for C3 at a concrete input. -/
theorem classify_default_mutating_witness :
    _is_read_only_command "s3 mb s3://bucket" = false :=
  classify_default_mutating "s3 mb s3://bucket" (by decide)
    (by
      intro svc op rest h
      have hps : pySplit (normalizeCmd "s3 mb s3://bucket") = ["s3", "mb", "s3://bucket"] := by
        decide
      rw [hps] at h
      injection h with e1 h
      injection h with e2 _
      subst e2
      decide)

/-- Claim C6: the argument vector is built in the fixed order binary,
profile option, region option, tokenized command; and a leading
invocation-name token on the command text is stripped, giving an
identical vector. -/
theorem argv_vector_construction :
    buildArgv "s3 ls" (some "prod") (some "us-east-1") =
      Except.ok ["aws", "--profile", "prod", "--region", "us-east-1", "s3", "ls"] ∧
    buildArgv "aws s3 ls" (some "prod") (some "us-east-1") =
      buildArgv "s3 ls" (some "prod") (some "us-east-1") := by decide

/-- Claim C10: the stdio classifier and the HTTP classifier agree on
every input string. -/
theorem stdio_http_classifiers_agree (command : String) :
    _is_read_only_command command = http_is_read_only_command command := rfl

/-- Appending the empty string on the right is the identity. -/
theorem strAppendEmpty (s : String) : s ++ "" = s := by
  apply String.ext
  rw [String.data_append]
  show s.data ++ [] = s.data
  exact List.append_nil s.data

/-- The read-channel rejection message decomposed around the
substring required by the spec. -/
theorem readRejectMsg_decomp (command : String) :
    readRejectMsg command =
      ("Error: Command " ++ squoteS ++ command ++ squoteS ++ " is ") ++
        "not a read-only operation" ++
        ". Use execute_aws_write_command instead." := by
  unfold readRejectMsg
  rw [show " is not a read-only operation. Use execute_aws_write_command instead." =
      " is " ++ ("not a read-only operation" ++ ". Use execute_aws_write_command instead.")
    from by decide]
  rw [← strAppendAssoc, ← strAppendAssoc]

/-- The write-channel rejection message decomposed around the
substring required by the spec. -/
theorem writeRejectMsg_decomp (command : String) :
    writeRejectMsg command =
      ("Error: Command " ++ squoteS ++ command ++ squoteS ++ " is a ") ++
        "read-only operation" ++
        ". Use execute_aws_read_command instead." := by
  unfold writeRejectMsg
  rw [show " is a read-only operation. Use execute_aws_read_command instead." =
      " is a " ++ ("read-only operation" ++ ". Use execute_aws_read_command instead.")
    from by decide]
  rw [← strAppendAssoc, ← strAppendAssoc]

/-- A channel result that launched no child process and whose text
contains the substring "not a read-only operation". -/
def rejectsNotReadOnly (r : Option (List String) × String) : Prop :=
  r.1 = none ∧ ∃ pre post, r.2 = pre ++ "not a read-only operation" ++ post

/-- A channel result that launched no child process and whose text
contains the substring "read-only operation". -/
def rejectsReadOnly (r : Option (List String) × String) : Prop :=
  r.1 = none ∧ ∃ pre post, r.2 = pre ++ "read-only operation" ++ post

/-- Claim C4: on both servers, calling the read channel with a
non-empty command classified mutating returns a failure text
containing "not a read-only operation" and launches no child
process. -/
theorem read_channel_rejects_mutating (proc : List String → ProcResult)
    (command : String) (profile region : Option String)
    (hne : command ≠ "") (hm : _is_read_only_command command = false) :
    rejectsNotReadOnly (execute_aws_read_command proc command profile region) ∧
    rejectsNotReadOnly (http_execute_aws_read_command proc command profile region) := by
  have hbe : (command == "") = false := by simp [hne]
  have hm2 : http_is_read_only_command command = false := hm
  have h1 : execute_aws_read_command proc command profile region =
      (none, readRejectMsg command) := by
    unfold execute_aws_read_command
    simp [hbe, hm]
  have h2 : http_execute_aws_read_command proc command profile region =
      (none, readRejectMsg command) := by
    unfold http_execute_aws_read_command
    simp [hbe, hm2]
  exact ⟨by rw [h1]; exact ⟨rfl, _, _, readRejectMsg_decomp command⟩,
    by rw [h2]; exact ⟨rfl, _, _, readRejectMsg_decomp command⟩⟩

/-- Witness for C4 at a concrete mutating command. -/
theorem read_channel_rejects_mutating_witness :
    rejectsNotReadOnly (execute_aws_read_command (fun _ => ProcResult.timedOut)
      "ec2 terminate-instances --instance-ids i-1" none none) ∧
    rejectsNotReadOnly (http_execute_aws_read_command (fun _ => ProcResult.timedOut)
      "ec2 terminate-instances --instance-ids i-1" none none) :=
  read_channel_rejects_mutating (fun _ => ProcResult.timedOut)
    "ec2 terminate-instances --instance-ids i-1" none none (by decide) (by decide)

/-- Claim C5: on both servers, calling the write channel with a
non-empty command classified read-only returns a failure text
containing "read-only operation" and launches no child process. -/
theorem write_channel_rejects_read_only (proc : List String → ProcResult)
    (command : String) (profile region : Option String)
    (hne : command ≠ "") (hro : _is_read_only_command command = true) :
    rejectsReadOnly (execute_aws_write_command proc command profile region) ∧
    rejectsReadOnly (http_execute_aws_write_command proc command profile region) := by
  have hbe : (command == "") = false := by simp [hne]
  have hro2 : http_is_read_only_command command = true := hro
  have h1 : execute_aws_write_command proc command profile region =
      (none, writeRejectMsg command) := by
    unfold execute_aws_write_command
    simp [hbe, hro]
  have h2 : http_execute_aws_write_command proc command profile region =
      (none, writeRejectMsg command) := by
    unfold http_execute_aws_write_command
    simp [hbe, hro2]
  exact ⟨by rw [h1]; exact ⟨rfl, _, _, writeRejectMsg_decomp command⟩,
    by rw [h2]; exact ⟨rfl, _, _, writeRejectMsg_decomp command⟩⟩

/-- Witness for C5 at a concrete read-only command. -/
theorem write_channel_rejects_read_only_witness :
    rejectsReadOnly (execute_aws_write_command (fun _ => ProcResult.timedOut)
      "s3 ls" none none) ∧
    rejectsReadOnly (http_execute_aws_write_command (fun _ => ProcResult.timedOut)
      "s3 ls" none none) :=
  write_channel_rejects_read_only (fun _ => ProcResult.timedOut)
    "s3 ls" none none (by decide) (by decide)

/-- Claim C7 counterexample: the HTTP engine splits the command text
on white space only, so a double-quoted argument containing a space
is broken into two tokens, and a command with an unbalanced quote
launches a child process instead of yielding a tokenization
failure. -/
theorem http_tokenization_counterexample :
    (http_execute_aws_command (fun _ => ProcResult.timedOut)
      "s3 cp \"my file.txt\" dest" none none).1 =
      some ["aws", "s3", "cp", "\"my", "file.txt\"", "dest"] ∧
    (http_execute_aws_command (fun _ => ProcResult.timedOut)
      "s3 ls \"oops" none none).1 =
      some ["aws", "s3", "ls", "\"oops"] := by decide

/-- Claim C7 (amended): the stdio engine tokenizes with shell-style
quoting, keeping a quoted argument with spaces as one token, and any
command whose tokenization fails yields the syntax-failure result
with no child process launched; the HTTP engine splits on white space
only and always launches. -/
theorem stdio_tokenization_shell_quoting (proc : List String → ProcResult)
    (command e : String) (profile region : Option String)
    (herr : shlexSplit (stripAwsExec command) = Except.error e) :
    shlexSplit "s3 cp \"my file.txt\" dest" =
      Except.ok ["s3", "cp", "my file.txt", "dest"] ∧
    execute_aws_command proc command profile region =
      (none, (false, "Invalid command syntax: " ++ e)) ∧
    (http_execute_aws_command proc command profile region).1.isSome = true := by
  refine ⟨by decide, ?_, rfl⟩
  unfold execute_aws_command buildArgv
  rw [herr]

/-- Witness for the amended C7 at a concrete unbalanced-quote
command. -/
theorem stdio_tokenization_shell_quoting_witness :
    shlexSplit "s3 cp \"my file.txt\" dest" =
      Except.ok ["s3", "cp", "my file.txt", "dest"] ∧
    execute_aws_command (fun _ => ProcResult.timedOut) "s3 ls \"oops" none none =
      (none, (false, "Invalid command syntax: " ++ "No closing quotation")) ∧
    (http_execute_aws_command (fun _ => ProcResult.timedOut)
      "s3 ls \"oops" none none).1.isSome = true :=
  stdio_tokenization_shell_quoting (fun _ => ProcResult.timedOut)
    "s3 ls \"oops" "No closing quotation" none none (by decide)

/-- Claim C8 counterexample: a read-only command with an unbalanced
quote passes the gate, launches nothing, and returns the
tokenization-failure text, which is not prefixed "Error:"; a nonzero
exit code likewise returns a "Command failed" text without the
prefix. -/
theorem error_prefix_counterexample :
    (execute_aws_read_command (fun _ => ProcResult.timedOut) "ls \"x" none none).1 = none ∧
    (execute_aws_read_command (fun _ => ProcResult.timedOut) "ls \"x" none none).2 =
      "Invalid command syntax: No closing quotation" ∧
    startsWithS (execute_aws_read_command (fun _ => ProcResult.timedOut)
      "ls \"x" none none).2 "Error:" = false ∧
    (execute_aws_read_command (fun _ => ProcResult.completed 1 "" "AccessDenied")
      "s3 ls" none none).2 = "Command failed: AccessDenied" ∧
    startsWithS (execute_aws_read_command (fun _ => ProcResult.completed 1 "" "AccessDenied")
      "s3 ls" none none).2 "Error:" = false := by decide

/-- The exhaustive result forms of the stdio engine: a tokenization
failure with no launch, or a launched process whose result is the
stdout on exit 0, the "Command failed" text, the fixed timeout text,
or the "Error executing command" text. -/
theorem engine_forms (proc : List String → ProcResult) (command : String)
    (profile region : Option String) :
    (∃ e, execute_aws_command proc command profile region =
      (none, (false, "Invalid command syntax: " ++ e))) ∨
    (∃ argv out err, execute_aws_command proc command profile region =
      (some argv, (true, out)) ∧ proc argv = ProcResult.completed 0 out err) ∨
    (∃ argv e, execute_aws_command proc command profile region =
      (some argv, (false, "Command failed: " ++ e))) ∨
    (∃ argv, execute_aws_command proc command profile region =
      (some argv, (false, "Command timed out after 30 seconds"))) ∨
    (∃ argv e, execute_aws_command proc command profile region =
      (some argv, (false, "Error executing command: " ++ e))) := by
  unfold execute_aws_command
  rcases hb : buildArgv command profile region with e | argv
  · exact Or.inl ⟨e, rfl⟩
  · rcases hpr : proc argv with ⟨ec, out, err⟩ | _ | msg
    · by_cases hec : (ec == 0) = true
      · refine Or.inr (Or.inl ⟨argv, out, err, ?_, ?_⟩)
        · simp [runProc, hpr, hec]
        · rw [hpr, eq_of_beq hec]
      · refine Or.inr (Or.inr (Or.inl ⟨argv, err, ?_⟩))
        simp only [Bool.not_eq_true] at hec
        simp [runProc, hpr, hec]
    · exact Or.inr (Or.inr (Or.inr (Or.inl ⟨argv, by simp [runProc, hpr]⟩)))
    · exact Or.inr (Or.inr (Or.inr (Or.inr ⟨argv, msg, by simp [runProc, hpr]⟩)))

/-- The possible forms of a string returned by a gateway channel:
the empty-command text, one of the two classification-rejection
texts, the tokenization-failure text, the stdout of a successfully
completed process, or one of the three engine failure texts.  Only
the first three are prefixed "Error:". -/
def gatewayResultForms (proc : List String → ProcResult) (command : String)
    (r : Option (List String) × String) : Prop :=
  r.2 = "Error: No command provided" ∨
  (r.1 = none ∧ r.2 = readRejectMsg command) ∨
  (r.1 = none ∧ r.2 = writeRejectMsg command) ∨
  (∃ e, r.1 = none ∧ r.2 = "Invalid command syntax: " ++ e) ∨
  (∃ argv out err, r.1 = some argv ∧ proc argv = ProcResult.completed 0 out err ∧ r.2 = out) ∨
  (∃ e, r.2 = "Command failed: " ++ e) ∨
  r.2 = "Command timed out after 30 seconds" ∨
  (∃ e, r.2 = "Error executing command: " ++ e)

/-- Claim C8 (amended): every string returned by the read or write
channel is the stdout of a successfully completed process or one of
the fixed failure texts; only the gateway-level rejections (empty
command, classification mismatch) carry the "Error:" prefix, while
the engine failure texts are returned verbatim without it. -/
theorem gateway_result_taxonomy (proc : List String → ProcResult)
    (command : String) (profile region : Option String) :
    gatewayResultForms proc command (execute_aws_read_command proc command profile region) ∧
    gatewayResultForms proc command (execute_aws_write_command proc command profile region) := by
  constructor
  · by_cases hc : (command == "") = true
    · left
      unfold execute_aws_read_command
      simp [hc]
    · simp only [Bool.not_eq_true] at hc
      by_cases hro : _is_read_only_command command = true
      · have hr : execute_aws_read_command proc command profile region =
            ((execute_aws_command proc command profile region).1,
             (execute_aws_command proc command profile region).2.2) := by
          unfold execute_aws_read_command
          simp [hc, hro]
        rw [hr]
        rcases engine_forms proc command profile region with
          ⟨e, he⟩ | ⟨argv, out, err, he, hp⟩ | ⟨argv, e, he⟩ | ⟨argv, he⟩ | ⟨argv, e, he⟩
        · exact Or.inr (Or.inr (Or.inr (Or.inl ⟨e, by rw [he], by rw [he]⟩)))
        · exact Or.inr (Or.inr (Or.inr (Or.inr (Or.inl
            ⟨argv, out, err, by rw [he], hp, by rw [he]⟩))))
        · exact Or.inr (Or.inr (Or.inr (Or.inr (Or.inr (Or.inl ⟨e, by rw [he]⟩)))))
        · exact Or.inr (Or.inr (Or.inr (Or.inr (Or.inr (Or.inr (Or.inl (by rw [he])))))))
        · exact Or.inr (Or.inr (Or.inr (Or.inr (Or.inr (Or.inr (Or.inr ⟨e, by rw [he]⟩))))))
      · simp only [Bool.not_eq_true] at hro
        have hr : execute_aws_read_command proc command profile region =
            (none, readRejectMsg command) := by
          unfold execute_aws_read_command
          simp [hc, hro]
        exact Or.inr (Or.inl ⟨by rw [hr], by rw [hr]⟩)
  · by_cases hc : (command == "") = true
    · left
      unfold execute_aws_write_command
      simp [hc]
    · simp only [Bool.not_eq_true] at hc
      by_cases hro : _is_read_only_command command = true
      · have hr : execute_aws_write_command proc command profile region =
            (none, writeRejectMsg command) := by
          unfold execute_aws_write_command
          simp [hc, hro]
        exact Or.inr (Or.inr (Or.inl ⟨by rw [hr], by rw [hr]⟩))
      · simp only [Bool.not_eq_true] at hro
        have hr : execute_aws_write_command proc command profile region =
            ((execute_aws_command proc command profile region).1,
             (execute_aws_command proc command profile region).2.2) := by
          unfold execute_aws_write_command
          simp [hc, hro]
        rw [hr]
        rcases engine_forms proc command profile region with
          ⟨e, he⟩ | ⟨argv, out, err, he, hp⟩ | ⟨argv, e, he⟩ | ⟨argv, he⟩ | ⟨argv, e, he⟩
        · exact Or.inr (Or.inr (Or.inr (Or.inl ⟨e, by rw [he], by rw [he]⟩)))
        · exact Or.inr (Or.inr (Or.inr (Or.inr (Or.inl
            ⟨argv, out, err, by rw [he], hp, by rw [he]⟩))))
        · exact Or.inr (Or.inr (Or.inr (Or.inr (Or.inr (Or.inl ⟨e, by rw [he]⟩)))))
        · exact Or.inr (Or.inr (Or.inr (Or.inr (Or.inr (Or.inr (Or.inl (by rw [he])))))))
        · exact Or.inr (Or.inr (Or.inr (Or.inr (Or.inr (Or.inr (Or.inr ⟨e, by rw [he]⟩))))))

/-- The per-profile line in the form the spec states it: the profile
name, then the region segment and the role segment, each appended
exactly when the attribute is present and non-empty. -/
def specProfileLine (name : String) (region role : Option String) : String :=
  "Profile: " ++ name ++
    (match region with
      | some r => if r == "" then "" else " (region: " ++ r ++ ")"
      | none => "") ++
    (match role with
      | some a => if a == "" then "" else " [role: " ++ a ++ "]"
      | none => "")

/-- Claim C9 counterexample: on a non-empty profile set the returned
string is not the newline-join of the per-profile lines: a fixed
header line precedes them; and a present-but-empty region attribute
is omitted from its line. -/
theorem list_profiles_counterexample :
    list_aws_profiles [("dev", ⟨some "us-east-1", none, none⟩)] =
      "Available AWS profiles:\nProfile: dev (region: us-east-1)" ∧
    list_aws_profiles [("dev", ⟨some "us-east-1", none, none⟩)] ≠
      "Profile: dev (region: us-east-1)" ∧
    list_aws_profiles [("dev", ⟨some "", none, none⟩)] =
      "Available AWS profiles:\nProfile: dev" := by decide

/-- The loop body of list_aws_profiles builds exactly the line the
spec describes. -/
theorem formatProfile_eq_spec (name : String) (info : ProfileInfo) :
    formatProfile name info = specProfileLine name info.region info.role_arn := by
  rcases info with ⟨reg, outp, role⟩
  unfold formatProfile specProfileLine
  rcases reg with _ | r <;> rcases role with _ | a
  · simp [strAppendEmpty]
  · by_cases ha : (a == "") = true <;> simp [ha, ← strAppendAssoc, strAppendEmpty]
  · by_cases hr : (r == "") = true <;> simp [hr, ← strAppendAssoc, strAppendEmpty]
  · by_cases hr : (r == "") = true <;> by_cases ha : (a == "") = true <;>
      simp [hr, ha, ← strAppendAssoc, strAppendEmpty]

/-- Claim C9 (amended): on an empty profile set the fixed no-profiles
message is returned; on a non-empty set the result is the fixed
header line followed by the newline-joined per-profile lines, one per
profile, with the region and role segments appended exactly when
present and non-empty. -/
theorem list_profiles_lines (profiles : List (String × ProfileInfo))
    (hne : profiles ≠ []) :
    list_aws_profiles profiles =
      "Available AWS profiles:\n" ++
        joinNL (profiles.map (fun p => specProfileLine p.1 p.2.region p.2.role_arn)) ∧
    list_aws_profiles [] = "No AWS profiles found in ~/.aws/config" := by
  refine ⟨?_, rfl⟩
  unfold list_aws_profiles
  have hmap : profiles.map (fun pi => formatProfile pi.1 pi.2) =
      profiles.map (fun p => specProfileLine p.1 p.2.region p.2.role_arn) := by
    clear hne
    induction profiles with
    | nil => rfl
    | cons x xs ih =>
      simp only [List.map_cons]
      rw [formatProfile_eq_spec x.1 x.2, ih]
  rw [hmap]
  have hle : (profiles.map
      (fun p => specProfileLine p.1 p.2.region p.2.role_arn)).isEmpty = false := by
    rcases profiles with _ | ⟨x, xs⟩
    · exact absurd rfl hne
    · rfl
  simp [hle]

/-- Witness for the amended C9 on a concrete two-profile set. -/
theorem list_profiles_lines_witness :
    list_aws_profiles
      [("dev", ⟨some "us-east-1", none, some "arn:aws:iam::1:role/r"⟩),
       ("ops", ⟨none, some "json", none⟩)] =
      "Available AWS profiles:\n" ++
        joinNL ([("dev", (⟨some "us-east-1", none, some "arn:aws:iam::1:role/r"⟩ : ProfileInfo)),
          ("ops", ⟨none, some "json", none⟩)].map
            (fun p => specProfileLine p.1 p.2.region p.2.role_arn)) ∧
    list_aws_profiles [] = "No AWS profiles found in ~/.aws/config" :=
  list_profiles_lines
    [("dev", ⟨some "us-east-1", none, some "arn:aws:iam::1:role/r"⟩),
     ("ops", ⟨none, some "json", none⟩)] (by decide)

end AwsMcp
